import Mathlib

/-!
Verification of the AI-test-generation browser extension's core
(provider dispatcher, prompt builder, response cleaner, call logging),
shallowly embedded from the background script source.

Strings are modelled as Lean `String`/`List Char`; the four JavaScript
regular-expression replacements of `cleanAIResponse` are embedded by a
specialised backtracking matcher that reproduces the leftmost-match,
greedy-quantifier semantics of `String.replace` with a non-global regex.
HTTP is modelled by an oracle `HttpRequest → HttpResult`; the module-level
`currentAPICallLogs` array is modelled by explicit state passing.
-/

namespace AIGen

/-! ### JavaScript character classes and `trim` -/

/-- The JavaScript whitespace class (`\s` in regexes, and the characters
removed by `String.prototype.trim`). -/
def jsIsSpace (c : Char) : Bool :=
  c = ' ' || c = '\t' || c = '\n' || c = '\r' || c = '\x0b' || c = '\x0c' ||
  c.toNat = 0xa0 || c.toNat = 0x1680 ||
  (0x2000 ≤ c.toNat && c.toNat ≤ 0x200a) ||
  c.toNat = 0x2028 || c.toNat = 0x2029 || c.toNat = 0x202f ||
  c.toNat = 0x205f || c.toNat = 0x3000 || c.toNat = 0xfeff

/-- The JavaScript `.` regex class (any character except line terminators). -/
def jsDot (c : Char) : Bool :=
  !(c = '\n' || c = '\r' || c.toNat = 0x2028 || c.toNat = 0x2029)

/-- Model of `String.prototype.trim` on a character list. -/
def jsTrimL (l : List Char) : List Char :=
  ((l.dropWhile jsIsSpace).reverse.dropWhile jsIsSpace).reverse

/-- Model of `String.prototype.trim`. -/
def jsTrim (s : String) : String := String.mk (jsTrimL s.data)

/-! ### Backtracking regex primitives

Each JS regex in the source applies quantifiers only to character classes
or to a finite alternation of literal tags, so the backtracking search is
embedded directly: a quantified class yields its possible remainders in
backtracking priority order (greedy: longest consumption first), and the
first remainder on which the rest of the pattern succeeds is the match. -/

/-- Remainders after `[class]*` (greedy): drop `k, k-1, …, 0` matching chars. -/
def starDrops (p : Char → Bool) (s : List Char) : List (List Char) :=
  (List.range ((s.takeWhile p).length + 1)).map
    (fun i => s.drop ((s.takeWhile p).length - i))

/-- Remainders after `[class]+` (greedy): drop `k, k-1, …, 1` matching chars. -/
def plusDrops (p : Char → Bool) (s : List Char) : List (List Char) :=
  (List.range (s.takeWhile p).length).map
    (fun i => s.drop ((s.takeWhile p).length - i))

/-- Consume one literal character. -/
def litP (c : Char) : List Char → Option (List Char)
  | [] => none
  | a :: rest => if a = c then some rest else none

/-- Consume a literal character sequence. -/
def litStr : List Char → List Char → Option (List Char)
  | [], s => some s
  | c :: t, s => (litP c s).bind (litStr t)

/-! ### The four regex replacements of `cleanAIResponse` -/

/-- Character class `[A-Za-z\s\(\)]` of the framework-name-header regex. -/
def fwClsA (c : Char) : Bool := c.isAlpha || jsIsSpace c || c = '(' || c = ')'

/-- Character class `[A-Za-z\s]` of the framework-name-header regex. -/
def fwClsB (c : Char) : Bool := c.isAlpha || jsIsSpace c

/-- Match of `/^[A-Za-z\s\(\)]+\([A-Za-z\s]+\)\s*\([A-Za-z\s]+\)\s*\n/`
at the start of the string, returning the remainder after the match. -/
def fwMatch (s : List Char) : Option (List Char) :=
  (plusDrops fwClsA s).findSome? fun s1 =>
  (litP '(' s1).bind fun s2 =>
  (plusDrops fwClsB s2).findSome? fun s3 =>
  (litP ')' s3).bind fun s4 =>
  (starDrops jsIsSpace s4).findSome? fun s5 =>
  (litP '(' s5).bind fun s6 =>
  (plusDrops fwClsB s6).findSome? fun s7 =>
  (litP ')' s7).bind fun s8 =>
  (starDrops jsIsSpace s8).findSome? fun s9 =>
  litP '\n' s9

/-- Applies `.replace(frameworkNamePattern, '')`. -/
def removeFw (s : List Char) : List Char := (fwMatch s).getD s

/-- The language tag alternation `(?:typescript|javascript|python|java|js|ts)?`
in JS alternation priority order, ending with the empty (absent) tag. -/
def fenceTags : List (List Char) :=
  ["typescript".data, "javascript".data, "python".data, "java".data,
   "js".data, "ts".data, []]

/-- Match of `/^```(?:typescript|javascript|python|java|js|ts)?\s*\n/`. -/
def fenceOpenMatch (s : List Char) : Option (List Char) :=
  (litStr "```".data s).bind fun s1 =>
  fenceTags.findSome? fun tag =>
  (litStr tag s1).bind fun s2 =>
  (starDrops jsIsSpace s2).findSome? fun s3 =>
  litP '\n' s3

/-- Applies `.replace(/^```(?:typescript|javascript|python|java|js|ts)?\s*\n/, '')`. -/
def removeFenceOpen (s : List Char) : List Char := (fenceOpenMatch s).getD s

/-- Does `/\n```\s*$/` match starting exactly here? -/
def closeHereQ (s : List Char) : Bool :=
  match s with
  | '\n' :: '`' :: '`' :: '`' :: rest => rest.all jsIsSpace
  | _ => false

/-- Scan for the leftmost start of a `/\n```\s*$/` match; on success the
matched tail (which extends to the end of the string) is removed. -/
def removeFenceCloseAux : List Char → Option (List Char)
  | [] => none
  | c :: rest =>
    if closeHereQ (c :: rest) then some []
    else (removeFenceCloseAux rest).map (c :: ·)

/-- Applies `.replace(/\n```\s*$/, '')`. -/
def removeFenceClose (s : List Char) : List Char := (removeFenceCloseAux s).getD s

/-- Applies `.replace(/^```.*\n/, '')`: `.*` cannot cross a line terminator, so the
match, when it exists, removes the backticks, the rest of the first line
and its terminating newline. -/
def step4a (s : List Char) : List Char :=
  match litStr "```".data s with
  | none => s
  | some t =>
    match t.dropWhile jsDot with
    | '\n' :: tail => tail
    | _ => s

/-- Does `/\n```.*$/` match starting exactly here (reaching end of string)? -/
def tailHereQ (s : List Char) : Bool :=
  match s with
  | '\n' :: '`' :: '`' :: '`' :: rest => rest.all jsDot
  | _ => false

/-- Scan for the leftmost start of a `/\n```.*$/` match. -/
def step4bAux : List Char → Option (List Char)
  | [] => none
  | c :: rest =>
    if tailHereQ (c :: rest) then some []
    else (step4bAux rest).map (c :: ·)

/-- Applies `.replace(/\n```.*$/, '')`. -/
def step4b (s : List Char) : List Char := (step4bAux s).getD s

/-- Core of `cleanAIResponse` on character lists: trim, strip a framework-name
header, strip an opening code fence, strip a closing code fence, strip
remaining fence-like first/last lines, trim. -/
def cleanAIResponseL (content : List Char) : List Char :=
  jsTrimL (step4b (step4a (removeFenceClose (removeFenceOpen (removeFw (jsTrimL content))))))

/-- The response cleaner `cleanAIResponse` of the background script. -/
def cleanAIResponse (s : String) : String := String.mk (cleanAIResponseL s.data)

/-! ### JavaScript truthiness helpers (`x || default`) -/

/-- JS `s || d` for strings: the empty string is falsy. -/
def jsOrD (s d : String) : String := if s = "" then d else s

/-- JS `x || d` where `x` may be `undefined` or an empty (falsy) string. -/
def jsOrOpt (o : Option String) (d : String) : String :=
  match o with
  | some s => if s = "" then d else s
  | none => d

/-- JS `x || d` for an optional number (`0` is falsy). -/
def jsOrQ (o : Option ℚ) (d : ℚ) : ℚ :=
  match o with
  | some q => if q = 0 then d else q
  | none => d

/-- JS `x || d` for an optional natural number (`0` is falsy). -/
def jsOrNat (o : Option Nat) (d : Nat) : Nat :=
  match o with
  | some n => if n = 0 then d else n
  | none => d

/-- JS `a || b || …` over candidate string fields, skipping `undefined` and
empty (falsy) strings; `none` when every candidate is falsy. -/
def firstNonEmpty : List (Option String) → Option String
  | [] => none
  | o :: rest =>
    match o with
    | some s => if s = "" then firstNonEmpty rest else some s
    | none => firstNonEmpty rest

/-- Predicate `startsWithL pat s`: is `pat` an initial segment of `s`? -/
def startsWithL : List Char → List Char → Bool
  | [], _ => true
  | _ :: _, [] => false
  | c :: t, d :: s => c = d && startsWithL t s

/-- Predicate `containsSubL pat s`: does `pat` occur as a contiguous run in `s`? -/
def containsSubL (pat : List Char) : List Char → Bool
  | [] => pat.isEmpty
  | c :: rest => startsWithL pat (c :: rest) || containsSubL pat rest

/-- Model of `s.includes(pat)`. -/
def containsSub (s pat : String) : Bool := containsSubL pat.data s.data

/-- Model of `s.endsWith(pat)`. -/
def endsWithStr (s pat : String) : Bool := startsWithL pat.data.reverse s.data.reverse

/-! ### JSON values and HTTP model -/

/-- JSON values, used for request and (mocked) response bodies. Numbers are
rationals, which covers every literal the source sends. -/
inductive Json where
  | str (s : String)
  | num (q : ℚ)
  | bool (b : Bool)
  | nul
  | arr (elems : List Json)
  | obj (fields : List (String × Json))

/-- Object field access `j.k` (first binding wins, as in JSON objects). -/
def Json.getField : Json → String → Option Json
  | .obj fields, k => fields.lookup k
  | _, _ => none

/-- The value when it is a string. -/
def Json.asString : Json → Option String
  | .str s => some s
  | _ => none

/-- Element `j[0]` of an array value. -/
def Json.head : Json → Option Json
  | .arr (x :: _) => some x
  | _ => none

/-- String field access `j.k` when the field holds a string. -/
def Json.getStrField (j : Json) (k : String) : Option String :=
  (j.getField k).bind Json.asString

mutual

/-- Compact rendering, standing in for the raw response text where the
source calls `response.text()` (string escaping is not modelled). -/
def Json.render : Json → String
  | .str s => "\"" ++ s ++ "\""
  | .num q => toString q
  | .bool b => if b then "true" else "false"
  | .nul => "null"
  | .arr l => "[" ++ Json.renderList l ++ "]"
  | .obj l => "\x7b" ++ Json.renderObj l ++ "\x7d"

/-- Render array elements, comma-separated. -/
def Json.renderList : List Json → String
  | [] => ""
  | [x] => x.render
  | x :: rest => x.render ++ "," ++ Json.renderList rest

/-- Render object fields, comma-separated. -/
def Json.renderObj : List (String × Json) → String
  | [] => ""
  | [(k, v)] => "\"" ++ k ++ "\":" ++ v.render
  | (k, v) :: rest => "\"" ++ k ++ "\":" ++ v.render ++ "," ++ Json.renderObj rest

end

/-- One outbound HTTP request as passed to `fetch`. -/
structure HttpRequest where
  url : String
  method : String
  headers : List (String × String)
  body : Json

/-- Outcome of one `fetch`: an HTTP response (any status) with a JSON body,
or a thrown network-level error carrying its JS error name and message. -/
inductive HttpResult where
  | success (status : Nat) (body : Json)
  | netError (name : String) (message : String)

/-- The network, as an oracle from requests to outcomes. -/
def HttpOracle := HttpRequest → HttpResult

/-- Model of `response.ok`: status in the 2xx range. -/
def statusOk (st : Nat) : Bool := 200 ≤ st && st < 300

/-- One `APICallLog` entry: the request, and either response data
(status and body) or the error string of a failed network call
(recorded with status 0, as in the source's catch branch). -/
structure APICallLog where
  provider : String
  model : String
  request : HttpRequest
  status : Nat
  responseBody : Option Json
  error : Option String

/-- The single log entry `loggedFetch` records for one attempt,
whatever its outcome. -/
def loggedFetchEntry (oracle : HttpOracle) (req : HttpRequest)
    (provider model : String) : APICallLog :=
  match oracle req with
  | .success st body => ⟨provider, model, req, st, some body, none⟩
  | .netError _ msg => ⟨provider, model, req, 0, none, some msg⟩

/-- Model of `loggedFetch`: perform the request and append exactly one log entry;
the result (or the thrown error) is passed through to the caller. -/
def loggedFetch (oracle : HttpOracle) (req : HttpRequest) (provider model : String)
    (log : List APICallLog) : HttpResult × List APICallLog :=
  (oracle req, log ++ [loggedFetchEntry oracle req provider model])

/-! ### Data model: generation request, settings, frameworks -/

/-- Bounding-rect data of an inspected element. -/
structure PagePosition where
  x : Int
  y : Int
  width : Int
  height : Int

/-- Optional enhanced element context. -/
structure ElementContext where
  position : PagePosition
  visible : Bool

/-- Optional accessibility attributes; `""` models an absent (falsy) field. -/
structure ElementAccessibility where
  role : String
  ariaLabel : String
  title : String

/-- An inspected DOM element descriptor; `""` models absent optional
string fields (JS falsy). -/
structure ElementData where
  tagName : String
  id : String
  className : String
  cssSelector : String
  xpath : String
  textContent : String
  context : Option ElementContext
  accessibility : Option ElementAccessibility

/-- One recorded user action. -/
structure TestAction where
  type : String
  element : ElementData
  value : String
  description : String

/-- Optional page context of a generation request. -/
structure PageContext where
  url : String
  title : String
  elementCount : Nat

/-- The generation request payload sent by the UI. -/
structure GenerateData where
  userPrompt : String
  actions : List TestAction
  elements : List ElementData
  pageContext : Option PageContext

/-- A target framework descriptor (`id`, display name, language). -/
structure TestFramework where
  id : String
  name : String
  language : String

/-- Local provider configuration. -/
structure LocalSetupConfig where
  endpoint : String
  model : String
  temperature : Option ℚ
  maxTokens : Option Nat

/-- OpenRouter configuration. -/
structure OpenRouterConfig where
  apiKey : String
  model : String
  temperature : Option ℚ
  maxTokens : Option Nat

/-- Custom (manual) provider configuration. -/
structure CustomProviderConfig where
  baseUrl : String
  apiKey : String
  model : String
  headers : List (String × String)
  temperature : Option ℚ
  maxTokens : Option Nat

/-- Persisted extension settings, as read by the dispatcher. -/
structure ExtensionSettings where
  selectedFramework : String
  selectedAIProvider : String
  apiKeys : List (String × String)
  selectedModel : List (String × String)
  localSetup : Option LocalSetupConfig
  openRouterConfig : Option OpenRouterConfig
  customProviderConfig : Option CustomProviderConfig
  includeComments : Bool
  usePageObjectModel : Bool

/-- The framework descriptors of `testTemplates`. -/
def testFrameworks : List TestFramework :=
  [⟨"playwright-js", "Playwright (JavaScript)", "JavaScript"⟩,
   ⟨"playwright-python", "Playwright (Python)", "Python"⟩,
   ⟨"cypress-js", "Cypress (JavaScript)", "JavaScript"⟩,
   ⟨"selenium-java", "Selenium (Java)", "Java"⟩,
   ⟨"selenium-python", "Selenium (Python)", "Python"⟩]

/-- Model of `getTemplateByFramework`, restricted to the framework descriptor
(the template's string generator is an external collaborator). -/
def getTemplateByFramework (frameworkId : String) : Option TestFramework :=
  testFrameworks.find? (fun fw => fw.id == frameworkId)

/-! ### Prompt builder -/

/-- The fixed system prompt used by every chat-shaped request. -/
def systemPrompt : String :=
  "You are an expert test automation engineer specializing in creating robust, maintainable test code. Focus on best practices, proper error handling, and reliable selectors."

/-- Model of `substring(0, n)`. -/
def takeStr (n : Nat) (s : String) : String := String.mk (s.data.take n)

/-- JS boolean-to-string interpolation. -/
def boolStr (b : Bool) : String := if b then "true" else "false"

/-- The accessibility fragment: the source appends the `.trim()` of a
template literal that starts with a newline and indentation, so the
rendered fragment carries no leading newline. -/
def accessibilityPart (acc : ElementAccessibility) : String :=
  jsTrim ("\n     Accessibility: "
    ++ (if acc.role ≠ "" then "role=\"" ++ acc.role ++ "\"" else "")
    ++ " "
    ++ (if acc.ariaLabel ≠ "" then "aria-label=\"" ++ acc.ariaLabel ++ "\"" else "")
    ++ " "
    ++ (if acc.title ≠ "" then "title=\"" ++ acc.title ++ "\"" else ""))

/-- Everything of one enumerated action block after its `"{i}. "` number. -/
def actionBlockRest (action : TestAction) : String :=
  action.type.toUpper ++ " on element: " ++ action.element.tagName
  ++ (if action.element.id ≠ "" then "#" ++ action.element.id else "")
  ++ (if action.element.className ≠ "" then "." ++ action.element.className else "")
  ++ "\n     Selector: " ++ action.element.cssSelector
  ++ "\n     XPath: " ++ action.element.xpath
  ++ "\n     Text Content: "
  ++ (if action.element.textContent ≠ "" then takeStr 100 action.element.textContent else "N/A")
  ++ (match action.element.context with
      | some ctx =>
        "\n     Position: " ++ toString ctx.position.x ++ ", " ++ toString ctx.position.y
        ++ " (" ++ toString ctx.position.width ++ "x" ++ toString ctx.position.height ++ ")"
        ++ "\n     Visible: " ++ boolStr ctx.visible
      | none => "")
  ++ (match action.element.accessibility with
      | some acc =>
        if acc.role ≠ "" || acc.ariaLabel ≠ "" || acc.title ≠ "" then accessibilityPart acc
        else ""
      | none => "")
  ++ "\n     " ++ (if action.value ≠ "" then "Value: " ++ action.value else "")
  ++ "\n     Description: " ++ action.description

/-- The `i`-th (0-based) enumerated action block, `"{i+1}. "` first. -/
def actionLine (index : Nat) (action : TestAction) : String :=
  toString (index + 1) ++ ". " ++ actionBlockRest action

/-- The enumerated action blocks starting at index `i`. -/
def actionLinesFrom (i : Nat) : List TestAction → List String
  | [] => []
  | a :: rest => actionLine i a :: actionLinesFrom (i + 1) rest

/-- The enumerated action blocks of `buildPrompt` (joined with `"\n"`). -/
def actionLines (actions : List TestAction) : List String := actionLinesFrom 0 actions

/-- The prompt text before the action blocks: scenario line and the
optional page-context block (omitted entirely when absent). -/
def promptHead (data : GenerateData) (fw : TestFramework) : String :=
  "Generate " ++ fw.name ++ " test code in " ++ fw.language
  ++ " for the following scenario:\n\nUser Request: "
  ++ jsOrD data.userPrompt "Generate test for the selected elements"
  ++ (match data.pageContext with
      | some pc =>
        "\n\nPage Context:\n- URL: " ++ pc.url ++ "\n- Title: " ++ pc.title
        ++ "\n- Selected Elements: " ++ toString pc.elementCount
      | none => "")
  ++ "\n\nElements and Actions:\n"

/-- The prompt text after the action blocks: the fixed requirements and
the two conditional preference lines. -/
def promptTail (fw : TestFramework) (includeComments usePageObjectModel : Bool) : String :=
  "\n\nRequirements:\n- Use modern best practices for " ++ fw.name
  ++ "\n- Include proper waits and error handling"
  ++ "\n- Use reliable selectors (prefer CSS selectors over XPath when possible)"
  ++ "\n- Follow " ++ fw.language ++ " coding conventions"
  ++ "\n- Make the test maintainable and readable"
  ++ "\n- Handle potential race conditions and flaky elements"
  ++ "\n- Use appropriate assertions for validation"
  ++ (if includeComments then "\n- Add descriptive comments explaining each step" else "")
  ++ (if usePageObjectModel then "\n- Structure the code using Page Object Model pattern" else "")
  ++ "\n\nGenerate only the test code without explanations or markdown formatting."

/-- Model of `buildPrompt`: scenario, optional page context, enumerated action
blocks, requirements, preference lines, final instruction. -/
def buildPrompt (data : GenerateData) (fw : TestFramework)
    (settings : ExtensionSettings) : String :=
  promptHead data fw
  ++ String.intercalate "\n" (actionLines data.actions)
  ++ promptTail fw settings.includeComments settings.usePageObjectModel

/-! ### Hosted chat providers -/

/-- The `[system, user]` message array of the OpenAI-shaped bodies. -/
def chatMessagesJson (prompt : String) : Json :=
  .arr [.obj [("role", .str "system"), ("content", .str systemPrompt)],
        .obj [("role", .str "user"), ("content", .str prompt)]]

/-- Extraction `data.choices[0].message.content` when it exists and is a string. -/
def chatMsgContent (body : Json) : Option String :=
  ((((body.getField "choices").bind Json.head).bind
    (fun c => c.getField "message")).bind
    (fun m => m.getField "content")).bind Json.asString

/-- Extraction `data.content[0].text` (Anthropic shape). -/
def anthropicContent (body : Json) : Option String :=
  (((body.getField "content").bind Json.head).bind
    (fun c => c.getField "text")).bind Json.asString

/-- Model of `data.error?.message || default` (string messages; `""` is falsy). -/
def errMsgOr (body : Json) (default : String) : String :=
  jsOrOpt (((body.getField "error").bind (fun e => e.getField "message")).bind Json.asString)
    default

/-- Shared tail of every hosted chat call: a thrown network error
propagates; a non-2xx status throws `data.error?.message || default`;
a 2xx response yields the cleaned extracted content (reading a missing
content path throws a TypeError in the source). -/
def finishHosted (extract : Json → Option String) (defaultErr : String)
    (result : HttpResult) : Except String String :=
  match result with
  | .netError _ msg => .error msg
  | .success st body =>
    if statusOk st then
      match extract body with
      | some content => .ok (cleanAIResponse content)
      | none => .error "TypeError: cannot read response content"
    else .error (errMsgOr body defaultErr)

/-- The OpenAI request. -/
def openAIRequest (apiKey prompt model : String) : HttpRequest :=
  { url := "https://api.openai.com/v1/chat/completions"
    method := "POST"
    headers := [("Authorization", "Bearer " ++ apiKey), ("Content-Type", "application/json")]
    body := .obj [("model", .str model), ("messages", chatMessagesJson prompt),
                  ("temperature", .num (1/10)), ("max_tokens", .num 3000)] }

/-- Model of `callOpenAI`. -/
def callOpenAI (apiKey prompt : String) (model : Option String) (oracle : HttpOracle)
    (log : List APICallLog) : Except String String × List APICallLog :=
  let m := jsOrOpt model "gpt-4"
  let r := loggedFetch oracle (openAIRequest apiKey prompt m) "openai" m log
  (finishHosted chatMsgContent "OpenAI API error" r.1, r.2)

/-- The Anthropic request. -/
def anthropicRequest (apiKey prompt model : String) : HttpRequest :=
  { url := "https://api.anthropic.com/v1/messages"
    method := "POST"
    headers := [("x-api-key", apiKey), ("Content-Type", "application/json"),
                ("anthropic-version", "2023-06-01")]
    body := .obj [("model", .str model), ("max_tokens", .num 3000),
                  ("messages", .arr [.obj [("role", .str "user"), ("content", .str prompt)]])] }

/-- Model of `callAnthropic`. -/
def callAnthropic (apiKey prompt : String) (model : Option String) (oracle : HttpOracle)
    (log : List APICallLog) : Except String String × List APICallLog :=
  let m := jsOrOpt model "claude-3-sonnet-20240229"
  let r := loggedFetch oracle (anthropicRequest apiKey prompt m) "Anthropic" m log
  (finishHosted anthropicContent "Anthropic API error" r.1, r.2)

/-- The DeepSeek request. -/
def deepSeekRequest (apiKey prompt model : String) : HttpRequest :=
  { url := "https://api.deepseek.com/v1/chat/completions"
    method := "POST"
    headers := [("Authorization", "Bearer " ++ apiKey), ("Content-Type", "application/json")]
    body := .obj [("model", .str model), ("messages", chatMessagesJson prompt),
                  ("temperature", .num (1/10)), ("max_tokens", .num 3000)] }

/-- Model of `callDeepSeek`. -/
def callDeepSeek (apiKey prompt : String) (model : Option String) (oracle : HttpOracle)
    (log : List APICallLog) : Except String String × List APICallLog :=
  let m := jsOrOpt model "deepseek-chat"
  let r := loggedFetch oracle (deepSeekRequest apiKey prompt m) "DeepSeek" m log
  (finishHosted chatMsgContent "DeepSeek API error" r.1, r.2)

/-- The Groq request. -/
def groqRequest (apiKey prompt model : String) : HttpRequest :=
  { url := "https://api.groq.com/openai/v1/chat/completions"
    method := "POST"
    headers := [("Authorization", "Bearer " ++ apiKey), ("Content-Type", "application/json")]
    body := .obj [("model", .str model), ("messages", chatMessagesJson prompt),
                  ("temperature", .num (1/10)), ("max_tokens", .num 3000)] }

/-- Model of `callGroq`. -/
def callGroq (apiKey prompt : String) (model : Option String) (oracle : HttpOracle)
    (log : List APICallLog) : Except String String × List APICallLog :=
  let m := jsOrOpt model "llama-3.1-70b-versatile"
  let r := loggedFetch oracle (groqRequest apiKey prompt m) "Groq" m log
  (finishHosted chatMsgContent "Groq API error" r.1, r.2)

/-! ### Local provider: format auto-detection and the one 404 retry -/

/-- Model of `endpoint.includes('/v1') || endpoint.endsWith('/v1')`. -/
def localIsOpenAICompat (endpoint : String) : Bool :=
  containsSub endpoint "/v1" || endsWithStr endpoint "/v1"

/-- The chat-completions URL of the OpenAI-compatible branch. -/
def localChatUrl (endpoint : String) : String :=
  if endsWithStr endpoint "/v1" then endpoint ++ "/chat/completions"
  else endpoint ++ "/v1/chat/completions"

/-- The legacy completions URL used by the one 404 retry. -/
def localCompUrl (endpoint : String) : String :=
  if endsWithStr endpoint "/v1" then endpoint ++ "/completions"
  else endpoint ++ "/v1/completions"

/-- The chat-shaped local request body. -/
def localChatBody (cfg : LocalSetupConfig) (prompt : String) : Json :=
  .obj [("model", .str cfg.model),
        ("messages", chatMessagesJson prompt),
        ("temperature", .num (jsOrQ cfg.temperature (1/10))),
        ("max_tokens", .num ((jsOrNat cfg.maxTokens 3000 : Nat) : ℚ)),
        ("stream", .bool false)]

/-- The `{model, prompt, temperature, max_tokens, stream:false}` body,
used both by the legacy completions retry and by the Ollama-format
generate endpoint (the two literals in the source are identical). -/
def localCompBody (cfg : LocalSetupConfig) (prompt : String) : Json :=
  .obj [("model", .str cfg.model),
        ("prompt", .str (systemPrompt ++ "\n\n" ++ prompt)),
        ("temperature", .num (jsOrQ cfg.temperature (1/10))),
        ("max_tokens", .num ((jsOrNat cfg.maxTokens 3000 : Nat) : ℚ)),
        ("stream", .bool false)]

/-- A local POST request (only a Content-Type header, no auth). -/
def mkLocalReq (url : String) (body : Json) : HttpRequest :=
  ⟨url, "POST", [("Content-Type", "application/json")], body⟩

/-- Status-specific local error messages for non-2xx responses. -/
def localStatusError (cfg : LocalSetupConfig) (apiUrl : String) (st : Nat)
    (body : Json) : String :=
  if st = 403 then
    "Local AI service forbidden (403). Check if the service is accessible at " ++ cfg.endpoint
  else if st = 404 then
    "Endpoint not found (404). Verify the endpoint URL and model name. URL tried: " ++ apiUrl
  else if 500 ≤ st then
    "Local AI service error (" ++ toString st ++ "). Error: " ++ body.render
  else
    "Local provider error: " ++ body.render ++ " (" ++ toString st ++ ")"

/-- Extraction `data.choices?.[0]?.text` (legacy completions shape). -/
def chatChoiceText (body : Json) : Option String :=
  (((body.getField "choices").bind Json.head).bind
    (fun c => c.getField "text")).bind Json.asString

/-- OpenAI-compatible extraction: chat content, legacy text, then
top-level `content` and `text` (`||` chain; empty strings fall through). -/
def localOpenAIExtract (body : Json) : Option String :=
  firstNonEmpty [chatMsgContent body, chatChoiceText body,
                 body.getStrField "content", body.getStrField "text"]

/-- Ollama-format extraction: `data.response || data.text || data.content`. -/
def ollamaExtract (body : Json) : Option String :=
  firstNonEmpty [body.getStrField "response", body.getStrField "text",
                 body.getStrField "content"]

/-- Shared tail of the local call: the catch block turns a fetch-level
TypeError into the friendlier cannot-connect message; a non-2xx status
throws the status-specific message; a 2xx response yields the cleaned
extracted content, or the no-content error when every field is falsy. -/
def localFinish (cfg : LocalSetupConfig) (isCompat : Bool) (apiUrl : String)
    (result : HttpResult) : Except String String :=
  match result with
  | .netError name msg =>
    if name = "TypeError" && containsSub msg "fetch" then
      .error ("Cannot connect to local AI service at " ++ cfg.endpoint
        ++ ". Please ensure the service is running and accessible.")
    else .error msg
  | .success st body =>
    if statusOk st then
      match (if isCompat then localOpenAIExtract body else ollamaExtract body) with
      | some content => .ok (cleanAIResponse content)
      | none => .error "No content received from local AI service. Response format may be unexpected."
    else .error (localStatusError cfg apiUrl st body)

/-- Model of `callLocalProvider`: validation, format auto-detection on `/v1`,
the single 404-triggered legacy-completions retry, and extraction. -/
def callLocalProvider (config : Option LocalSetupConfig) (prompt : String)
    (oracle : HttpOracle) (log : List APICallLog) :
    Except String String × List APICallLog :=
  match config with
  | none =>
    (.error "Local setup configuration or prompt missing. Please configure endpoint and model in settings.", log)
  | some cfg =>
    if prompt = "" then
      (.error "Local setup configuration or prompt missing. Please configure endpoint and model in settings.", log)
    else if cfg.endpoint = "" then
      (.error "Local AI endpoint not configured. Please set endpoint (e.g., http://localhost:11434) in settings.", log)
    else if cfg.model = "" then
      (.error "Local AI model not specified. Please set model name (e.g., llama3.1:8b, codellama) in settings.", log)
    else
      let endpoint := jsTrim cfg.endpoint
      if localIsOpenAICompat endpoint then
        let r1 := loggedFetch oracle (mkLocalReq (localChatUrl endpoint) (localChatBody cfg prompt))
          "Local Provider" cfg.model log
        match r1.1 with
        | .success 404 _ =>
          let r2 := loggedFetch oracle (mkLocalReq (localCompUrl endpoint) (localCompBody cfg prompt))
            "Local Provider" cfg.model r1.2
          (localFinish cfg true (localCompUrl endpoint) r2.1, r2.2)
        | _ => (localFinish cfg true (localChatUrl endpoint) r1.1, r1.2)
      else
        let r := loggedFetch oracle (mkLocalReq (endpoint ++ "/api/generate") (localCompBody cfg prompt))
          "Local Provider" cfg.model log
        (localFinish cfg false (endpoint ++ "/api/generate") r.1, r.2)

/-! ### OpenRouter, custom provider, dispatch, generation handler -/

/-- The OpenRouter request. -/
def openRouterRequest (cfg : OpenRouterConfig) (prompt model : String) : HttpRequest :=
  { url := "https://openrouter.ai/api/v1/chat/completions"
    method := "POST"
    headers := [("Authorization", "Bearer " ++ cfg.apiKey), ("Content-Type", "application/json"),
                ("HTTP-Referer", "https://ai-testgen-extension.com"),
                ("X-Title", "AI TestGen Extension")]
    body := .obj [("model", .str model), ("messages", chatMessagesJson prompt),
                  ("temperature", .num (jsOrQ cfg.temperature (1/10))),
                  ("max_tokens", .num ((jsOrNat cfg.maxTokens 3000 : Nat) : ℚ))] }

/-- Model of `callOpenRouter`: validation, then one chat request. -/
def callOpenRouter (config : Option OpenRouterConfig) (prompt : String)
    (model : Option String) (oracle : HttpOracle) (log : List APICallLog) :
    Except String String × List APICallLog :=
  match config with
  | none => (.error "OpenRouter configuration or prompt missing", log)
  | some cfg =>
    if prompt = "" || cfg.apiKey = "" then
      (.error "OpenRouter configuration or prompt missing", log)
    else
      match model with
      | none => (.error "OpenRouter model not specified", log)
      | some m =>
        if m = "" then (.error "OpenRouter model not specified", log)
        else
          let r := loggedFetch oracle (openRouterRequest cfg prompt m) "OpenRouter" m log
          (finishHosted chatMsgContent "OpenRouter API error" r.1, r.2)

/-- The custom-provider request (extra configured headers appended). -/
def customRequest (cfg : CustomProviderConfig) (prompt : String) : HttpRequest :=
  { url := cfg.baseUrl ++ "/chat/completions"
    method := "POST"
    headers := [("Authorization", "Bearer " ++ cfg.apiKey), ("Content-Type", "application/json")]
      ++ cfg.headers
    body := .obj [("model", .str cfg.model), ("messages", chatMessagesJson prompt),
                  ("temperature", .num (jsOrQ cfg.temperature (1/10))),
                  ("max_tokens", .num ((jsOrNat cfg.maxTokens 3000 : Nat) : ℚ))] }

/-- Model of `callCustomProvider`: validation, then one chat request. -/
def callCustomProvider (config : Option CustomProviderConfig) (prompt : String)
    (oracle : HttpOracle) (log : List APICallLog) :
    Except String String × List APICallLog :=
  match config with
  | none => (.error "Custom provider configuration or prompt missing", log)
  | some cfg =>
    if prompt = "" then (.error "Custom provider configuration or prompt missing", log)
    else if cfg.baseUrl = "" || cfg.apiKey = "" || cfg.model = "" then
      (.error "Custom provider configuration is incomplete", log)
    else
      let r := loggedFetch oracle (customRequest cfg prompt) "Custom Provider" cfg.model log
      (finishHosted chatMsgContent "Custom provider API error" r.1, r.2)

/-- Model of `callAIProvider`: build the prompt, look up the selected model, and
dispatch on the provider identifier string. -/
def callAIProvider (provider apiKey : String) (data : GenerateData)
    (framework : TestFramework) (settings : ExtensionSettings)
    (oracle : HttpOracle) (log : List APICallLog) :
    Except String String × List APICallLog :=
  let prompt := buildPrompt data framework settings
  let selectedModel := settings.selectedModel.lookup provider
  match provider with
  | "openai" => callOpenAI apiKey prompt selectedModel oracle log
  | "anthropic" => callAnthropic apiKey prompt selectedModel oracle log
  | "deepseek" => callDeepSeek apiKey prompt selectedModel oracle log
  | "groq" => callGroq apiKey prompt selectedModel oracle log
  | "local" => callLocalProvider settings.localSetup prompt oracle log
  | "openrouter" => callOpenRouter settings.openRouterConfig prompt selectedModel oracle log
  | "manual" => callCustomProvider settings.customProviderConfig prompt oracle log
  | _ => (.error ("Unsupported AI provider: " ++ provider), log)

/-- The generated artifact: code plus the request-scoped call log. -/
structure GeneratedTest where
  code : String
  apiCalls : List APICallLog

/-- Model of `provider.charAt(0).toUpperCase() + provider.slice(1)`. -/
def capitalizeFirst (s : String) : String :=
  match s.data with
  | [] => ""
  | c :: rest => String.mk (c.toUpper :: rest)

/-- Model of `handleGenerateTest`: reset the call log, validate settings and the
provider's credentials (before any network call), resolve the framework,
then either dispatch to the AI provider (custom prompt present, or no
elements) or hand over to the external template generator. The stale log
of the previous request (`_prevLog`) is discarded unconditionally. -/
def handleGenerateTest (settings : Option ExtensionSettings) (data : GenerateData)
    (templateGen : GenerateData → ExtensionSettings → String)
    (oracle : HttpOracle) (_prevLog : List APICallLog) :
    Except String GeneratedTest × List APICallLog :=
  let log0 : List APICallLog := []
  match settings with
  | none =>
    (.error "Extension settings not found. Please configure the extension first.", log0)
  | some s =>
    if s.selectedAIProvider = "" then
      (.error "No AI provider selected. Please select a provider in settings.", log0)
    else
      let keyCheck : Except String String :=
        if s.selectedAIProvider = "local" then
          if (match s.localSetup with | some l => l.endpoint | none => "") = "" then
            .error "Local endpoint not configured. Please set up local provider in settings."
          else .ok ""
        else if s.selectedAIProvider = "openrouter" then
          let k := (match s.openRouterConfig with | some c => c.apiKey | none => "")
          if k = "" then
            .error "OpenRouter API key not configured. Please add your API key in settings."
          else .ok k
        else
          let k := (s.apiKeys.lookup s.selectedAIProvider).getD ""
          if k = "" then
            .error (capitalizeFirst s.selectedAIProvider
              ++ " API key not configured. Please add your API key in settings.")
          else .ok k
      match keyCheck with
      | .error e => (.error e, log0)
      | .ok apiKey =>
        match getTemplateByFramework s.selectedFramework with
        | none => (.error "Unsupported test framework", log0)
        | some fw =>
          if jsTrim data.userPrompt ≠ "" then
            match callAIProvider s.selectedAIProvider apiKey data fw s oracle log0 with
            | (.ok code, log') => (.ok ⟨code, log'⟩, log')
            | (.error e, log') => (.error e, log')
          else if !data.elements.isEmpty then
            (.ok ⟨templateGen data s, log0⟩, log0)
          else
            match callAIProvider s.selectedAIProvider apiKey data fw s oracle log0 with
            | (.ok code, log') => (.ok ⟨code, log'⟩, log')
            | (.error e, log') => (.error e, log')

/-! ### Specification predicates and projections -/

/-- A string transformation that either leaves its input unchanged or
strictly shortens it (every replacement step of the cleaner does). -/
def Shrinks (f : List Char → List Char) : Prop :=
  ∀ s, f s = s ∨ (f s).length < s.length

/-- The generated code of a successful generation outcome. -/
def getCode : Except String GeneratedTest × List APICallLog → Option String
  | (.ok t, _) => some t.code
  | (.error _, _) => none

/-- The error message of a failed dispatch outcome. -/
def getErr : Except String String × List APICallLog → Option String
  | (.error e, _) => some e
  | (.ok _, _) => none

/-! ### Concrete fixtures for witnesses and counterexamples -/

/-- A button element with id `submit`. -/
def submitButton : ElementData :=
  ⟨"button", "submit", "", "#submit", "//button[@id=submit]", "Submit", none, none⟩

/-- One click action on the submit button. -/
def clickSubmit : TestAction := ⟨"click", submitButton, "", "Click the submit button"⟩

/-- A second action, used by the prompt-builder witness. -/
def typeName : TestAction :=
  ⟨"type", ⟨"input", "name", "field", "#name", "//input[@id=name]", "", none, none⟩,
   "Alice", "Type the name"⟩

/-- The scenario of end-to-end scenario 1: one click action, scenario
text `Click submit`. -/
def demoData : GenerateData := ⟨"Click submit", [clickSubmit], [submitButton], none⟩

/-- Settings selecting the hosted-chat provider with a configured key. -/
def demoSettings : ExtensionSettings :=
  ⟨"playwright-js", "openai", [("openai", "sk-test")], [], none, none, none, true, false⟩

/-- Settings for a hosted-chat provider with no key configured. -/
def noKeySettings : ExtensionSettings :=
  ⟨"playwright-js", "openai", [], [], none, none, none, true, false⟩

/-- A mocked network answering every request with the 2xx chat-shaped
body of end-to-end scenario 1. -/
def okOracle : HttpOracle := fun _ =>
  .success 200 (.obj [("choices", .arr [.obj [("message",
    .obj [("content", .str "```python\nclick('#submit')\n```")])]])])

/-- A local configuration without `/v1` (Ollama-style). -/
def ollamaCfg : LocalSetupConfig := ⟨"http://localhost:11434", "llama-3.1", none, none⟩

/-- A mocked network answering `{"response":"do_something()"}` with 200. -/
def ollamaOracle : HttpOracle := fun _ =>
  .success 200 (.obj [("response", .str "do_something()")])

/-- A local configuration whose base URL contains `/v1`. -/
def v1Cfg : LocalSetupConfig := ⟨"http://localhost:1234/v1", "local-model", none, none⟩

/-- A mocked network that 404s the chat-shaped attempt (recognized by its
`messages` body field) and answers the legacy completions attempt with a
text choice. -/
def notFoundOracle : HttpOracle := fun req =>
  match req.body.getField "messages" with
  | some _ => .success 404 (.obj [])
  | none => .success 200 (.obj [("choices", .arr [.obj [("text", .str "ok()")]])])

/-- A mocked network answering 401 with `{"error":{"message":"invalid_api_key"}}`. -/
def badKeyOracle : HttpOracle := fun _ =>
  .success 401 (.obj [("error", .obj [("message", .str "invalid_api_key")])])

/-- A mocked network answering 401 with an empty JSON object body. -/
def bareUnauthorizedOracle : HttpOracle := fun _ => .success 401 (.obj [])

/-- A mocked network answering 500 with a body whose text is `boom`. -/
def serverBoomOracle : HttpOracle := fun _ =>
  .success 500 (.obj [("detail", .str "boom")])

/-- An external template generator stand-in (never reached on the paths
the theorems exercise). -/
def noTemplate : GenerateData → ExtensionSettings → String := fun _ _ => ""

/-! ## Helper lemmas: every replacement step of the cleaner only removes -/

theorem takeWhile_length_le (p : Char → Bool) :
    ∀ l : List Char, (l.takeWhile p).length ≤ l.length := by
  intro l
  induction l with
  | nil => simp
  | cons a t ih =>
    by_cases h : p a
    · simp [List.takeWhile_cons, h]; omega
    · simp [List.takeWhile_cons, h]

theorem dropWhile_eq_or_lt (p : Char → Bool) (l : List Char) :
    l.dropWhile p = l ∨ (l.dropWhile p).length < l.length := by
  cases l with
  | nil => left; rfl
  | cons a t =>
    by_cases h : p a
    · right
      rw [List.dropWhile_cons, if_pos h]
      have := (List.dropWhile_suffix (l := t) p).length_le
      simp
      omega
    · left
      rw [List.dropWhile_cons, if_neg h]

theorem jsTrimL_eq_or_lt : Shrinks jsTrimL := by
  intro s
  unfold jsTrimL
  rcases dropWhile_eq_or_lt jsIsSpace s with h1 | h1
  · rw [h1]
    rcases dropWhile_eq_or_lt jsIsSpace s.reverse with h2 | h2
    · left; rw [h2, List.reverse_reverse]
    · right; simpa using h2
  · right
    have h2 := (List.dropWhile_suffix (l := (s.dropWhile jsIsSpace).reverse) jsIsSpace).length_le
    simp only [List.length_reverse] at h2 ⊢
    omega

theorem litP_length {c : Char} {s r : List Char} (h : litP c s = some r) :
    s.length = r.length + 1 := by
  cases s with
  | nil => simp [litP] at h
  | cons a t =>
    by_cases hac : a = c
    · simp [litP, hac] at h
      simp [← h]
    · simp [litP, hac] at h

theorem litStr_length : ∀ {t s r : List Char}, litStr t s = some r →
    s.length = t.length + r.length := by
  intro t
  induction t with
  | nil =>
    intro s r h
    simp [litStr] at h
    simp [h]
  | cons c t ih =>
    intro s r h
    unfold litStr at h
    obtain ⟨s1, h1, h2⟩ := Option.bind_eq_some.1 h
    have e1 := litP_length h1
    have e2 := ih h2
    simp
    omega

theorem plusDrops_length {p : Char → Bool} {s t : List Char}
    (h : t ∈ plusDrops p s) : t.length < s.length := by
  unfold plusDrops at h
  obtain ⟨i, hi, rfl⟩ := List.mem_map.1 h
  rw [List.mem_range] at hi
  have hk := takeWhile_length_le p s
  rw [List.length_drop]
  omega

theorem starDrops_length {p : Char → Bool} {s t : List Char}
    (h : t ∈ starDrops p s) : t.length ≤ s.length := by
  unfold starDrops at h
  obtain ⟨i, hi, rfl⟩ := List.mem_map.1 h
  rw [List.length_drop]
  omega

theorem fwMatch_length {s r : List Char} (h : fwMatch s = some r) :
    r.length < s.length := by
  unfold fwMatch at h
  obtain ⟨s1, hm1, h⟩ := List.exists_of_findSome?_eq_some h
  obtain ⟨s2, h2, h⟩ := Option.bind_eq_some.1 h
  obtain ⟨s3, hm3, h⟩ := List.exists_of_findSome?_eq_some h
  obtain ⟨s4, h4, h⟩ := Option.bind_eq_some.1 h
  obtain ⟨s5, hm5, h⟩ := List.exists_of_findSome?_eq_some h
  obtain ⟨s6, h6, h⟩ := Option.bind_eq_some.1 h
  obtain ⟨s7, hm7, h⟩ := List.exists_of_findSome?_eq_some h
  obtain ⟨s8, h8, h⟩ := Option.bind_eq_some.1 h
  obtain ⟨s9, hm9, h⟩ := List.exists_of_findSome?_eq_some h
  have l1 := plusDrops_length hm1
  have e2 := litP_length h2
  have l3 := plusDrops_length hm3
  have e4 := litP_length h4
  have l5 := starDrops_length hm5
  have e6 := litP_length h6
  have l7 := plusDrops_length hm7
  have e8 := litP_length h8
  have l9 := starDrops_length hm9
  have e10 := litP_length h
  omega

theorem fenceOpenMatch_length {s r : List Char} (h : fenceOpenMatch s = some r) :
    r.length < s.length := by
  unfold fenceOpenMatch at h
  obtain ⟨s1, h1, h⟩ := Option.bind_eq_some.1 h
  obtain ⟨tag, hmt, h⟩ := List.exists_of_findSome?_eq_some h
  obtain ⟨s2, h2, h⟩ := Option.bind_eq_some.1 h
  obtain ⟨s3, hm3, h⟩ := List.exists_of_findSome?_eq_some h
  have e1 := litStr_length h1
  have e2 := litStr_length h2
  have l3 := starDrops_length hm3
  have e4 := litP_length h
  simp at e1
  omega

theorem removeFenceCloseAux_length : ∀ {s r : List Char},
    removeFenceCloseAux s = some r → r.length < s.length := by
  intro s
  induction s with
  | nil => intro r h; simp [removeFenceCloseAux] at h
  | cons c rest ih =>
    intro r h
    unfold removeFenceCloseAux at h
    by_cases hq : closeHereQ (c :: rest)
    · rw [if_pos hq] at h
      obtain rfl : ([] : List Char) = r := Option.some.inj h
      simp
    · rw [if_neg hq] at h
      obtain ⟨r1, h1, rfl⟩ := Option.map_eq_some'.1 h
      have := ih h1
      simp
      omega

theorem step4bAux_length : ∀ {s r : List Char},
    step4bAux s = some r → r.length < s.length := by
  intro s
  induction s with
  | nil => intro r h; simp [step4bAux] at h
  | cons c rest ih =>
    intro r h
    unfold step4bAux at h
    by_cases hq : tailHereQ (c :: rest)
    · rw [if_pos hq] at h
      obtain rfl : ([] : List Char) = r := Option.some.inj h
      simp
    · rw [if_neg hq] at h
      obtain ⟨r1, h1, rfl⟩ := Option.map_eq_some'.1 h
      have := ih h1
      simp
      omega

theorem removeFw_eq_or_lt : Shrinks removeFw := by
  intro s
  unfold removeFw
  cases h : fwMatch s with
  | none => left; rfl
  | some r => right; simpa using fwMatch_length h

theorem removeFenceOpen_eq_or_lt : Shrinks removeFenceOpen := by
  intro s
  unfold removeFenceOpen
  cases h : fenceOpenMatch s with
  | none => left; rfl
  | some r => right; simpa using fenceOpenMatch_length h

theorem removeFenceClose_eq_or_lt : Shrinks removeFenceClose := by
  intro s
  unfold removeFenceClose
  cases h : removeFenceCloseAux s with
  | none => left; rfl
  | some r => right; simpa using removeFenceCloseAux_length h

theorem step4b_eq_or_lt : Shrinks step4b := by
  intro s
  unfold step4b
  cases h : step4bAux s with
  | none => left; rfl
  | some r => right; simpa using step4bAux_length h

theorem step4a_eq_or_lt : Shrinks step4a := by
  intro s
  cases h1 : litStr "```".data s with
  | none => left; simp [step4a, h1]
  | some t =>
    cases h2 : t.dropWhile jsDot with
    | nil => left; simp [step4a, h1, h2]
    | cons c tail =>
      by_cases hc : c = '\n'
      · subst hc
        right
        have e1 := litStr_length h1
        have e3 : ("```".data).length = 3 := rfl
        have e2 := (List.dropWhile_suffix (l := t) jsDot).length_le
        rw [h2] at e2
        simp only [step4a, h1, h2]
        simp at e2
        omega
      · left
        simp only [step4a, h1, h2]
        split
        · rename_i x heq
          injection heq with hch _
          exact absurd hch hc
        · rfl

theorem Shrinks.comp {f g : List Char → List Char} (hf : Shrinks f) (hg : Shrinks g) :
    Shrinks (fun s => g (f s)) := by
  intro s
  show g (f s) = s ∨ (g (f s)).length < s.length
  rcases hf s with h | h
  · rw [h]; exact hg s
  · rcases hg (f s) with h2 | h2
    · right; rw [h2]; exact h
    · right; exact h2.trans h

theorem cleanAIResponseL_eq_or_lt : Shrinks cleanAIResponseL := by
  have c1 : Shrinks (fun s => removeFw (jsTrimL s)) :=
    Shrinks.comp jsTrimL_eq_or_lt removeFw_eq_or_lt
  have c2 : Shrinks (fun s => removeFenceOpen (removeFw (jsTrimL s))) :=
    Shrinks.comp c1 removeFenceOpen_eq_or_lt
  have c3 : Shrinks (fun s => removeFenceClose (removeFenceOpen (removeFw (jsTrimL s)))) :=
    Shrinks.comp c2 removeFenceClose_eq_or_lt
  have c4 : Shrinks (fun s => step4a (removeFenceClose (removeFenceOpen (removeFw (jsTrimL s))))) :=
    Shrinks.comp c3 step4a_eq_or_lt
  have c5 : Shrinks (fun s => step4b (step4a (removeFenceClose (removeFenceOpen (removeFw (jsTrimL s)))))) :=
    Shrinks.comp c4 step4b_eq_or_lt
  have c6 : Shrinks (fun s => jsTrimL (step4b (step4a (removeFenceClose (removeFenceOpen (removeFw (jsTrimL s))))))) :=
    Shrinks.comp c5 jsTrimL_eq_or_lt
  intro s
  exact c6 s

theorem cleanAIResponse_eq_or_lt (x : String) :
    cleanAIResponse x = x ∨ (cleanAIResponse x).length < x.length := by
  obtain ⟨l⟩ := x
  rcases cleanAIResponseL_eq_or_lt l with h | h
  · left; exact congrArg String.mk h
  · right; exact h

/-! ## Helper lemmas: prompt-builder action enumeration -/

theorem actionLinesFrom_length (l : List TestAction) :
    ∀ i, (actionLinesFrom i l).length = l.length := by
  induction l with
  | nil => intro i; rfl
  | cons a rest ih => intro i; simp [actionLinesFrom, ih]

theorem actionLinesFrom_getElem? (l : List TestAction) :
    ∀ i j, (actionLinesFrom i l)[j]? = (l[j]?).map (fun a => actionLine (i + j) a) := by
  induction l with
  | nil => intro i j; simp [actionLinesFrom]
  | cons a rest ih =>
    intro i j
    cases j with
    | zero => simp [actionLinesFrom]
    | succ j =>
      have harith : i + 1 + j = i + (j + 1) := by omega
      simp [actionLinesFrom, ih (i + 1) j, harith]

/-! ## Claim theorems: response cleaner -/

/-- C7: the response cleaner is total and deterministic. Totality and
determinism are witnessed by `cleanAIResponse` being a computable Lean
function (defined on every string, equal inputs give equal outputs); the
theorem additionally pins down the empty-string case and shows every step
only removes characters, so the cleaner never diverges or grows input. -/
theorem claim7_cleaner_total_deterministic :
    cleanAIResponse "" = "" ∧ ∀ x : String, (cleanAIResponse x).length ≤ x.length := by
  constructor
  · rfl
  · intro x
    rcases cleanAIResponse_eq_or_lt x with h | h
    · simp [h]
    · exact h.le

/-- C6 counterexample: the cleaner is not idempotent. Stripping the outer
code fence exposes a framework-name header (`Playwright (TypeScript)
(TypeScript)`) that only a second cleaning pass removes, so
`clean (clean x) ≠ clean x` at this input. -/
theorem claim6_counterexample :
    cleanAIResponse (cleanAIResponse "```\nPlaywright (TypeScript) (TypeScript)\ncode\n```")
      ≠ cleanAIResponse "```\nPlaywright (TypeScript) (TypeScript)\ncode\n```" := by
  decide

/-- C6 (amended): `clean(clean(x)) = clean(x)` fails in general; instead,
iterating the cleaner stabilizes: for every input there is an iterate
after which one more cleaning pass changes nothing. -/
theorem claim6_clean_stabilizes :
    ∀ x : String, ∃ n : Nat, cleanAIResponse^[n + 1] x = cleanAIResponse^[n] x := by
  have key : ∀ (N : Nat) (x : String), x.length ≤ N →
      ∃ n : Nat, cleanAIResponse^[n + 1] x = cleanAIResponse^[n] x := by
    intro N
    induction N with
    | zero =>
      intro x hx
      rcases cleanAIResponse_eq_or_lt x with h | h
      · exact ⟨0, by simpa using h⟩
      · omega
    | succ N ih =>
      intro x hx
      rcases cleanAIResponse_eq_or_lt x with h | h
      · exact ⟨0, by simpa using h⟩
      · obtain ⟨n, hn⟩ := ih (cleanAIResponse x) (by omega)
        refine ⟨n + 1, ?_⟩
        simp only [Function.iterate_succ_apply]
        exact hn
  intro x
  exact key x.length x le_rfl

/-! ## Claim theorem: prompt builder -/

/-- C8: for a request with N actions the prompt carries exactly N
enumerated action blocks, the j-th (0-based) beginning with `"{j+1}. "`,
in input order, and the blocks appear joined by newlines inside the
built prompt between its head and tail sections. -/
theorem claim8_prompt_enumerates_actions (data : GenerateData) (fw : TestFramework)
    (st : ExtensionSettings) :
    (actionLines data.actions).length = data.actions.length
    ∧ (∀ j, j < data.actions.length →
        ∃ rest, (actionLines data.actions)[j]? = some (toString (j + 1) ++ ". " ++ rest))
    ∧ buildPrompt data fw st
      = promptHead data fw ++ String.intercalate "\n" (actionLines data.actions)
        ++ promptTail fw st.includeComments st.usePageObjectModel := by
  refine ⟨actionLinesFrom_length data.actions 0, ?_, rfl⟩
  intro j hj
  obtain ⟨a, ha⟩ : ∃ a, data.actions[j]? = some a :=
    ⟨data.actions[j], List.getElem?_eq_getElem hj⟩
  refine ⟨actionBlockRest a, ?_⟩
  rw [actionLines, actionLinesFrom_getElem?, ha]
  simp [actionLine]

/-- C8 witness: a concrete two-action request has two blocks and the
second begins with `"2. "`. -/
theorem claim8_witness :
    (actionLines [clickSubmit, typeName]).length = 2
    ∧ ∃ rest, (actionLines [clickSubmit, typeName])[1]? = some (toString 2 ++ ". " ++ rest) := by
  have h := claim8_prompt_enumerates_actions
    ⟨"two actions", [clickSubmit, typeName], [], none⟩
    ⟨"playwright-js", "Playwright (JavaScript)", "JavaScript"⟩ demoSettings
  exact ⟨h.1, h.2.1 1 (by decide)⟩

/-! ## Helper lemmas: call-log shapes of the provider calls -/

theorem loggedFetch_snd (oracle : HttpOracle) (req : HttpRequest) (p m : String)
    (log : List APICallLog) :
    (loggedFetch oracle req p m log).2 = log ++ [loggedFetchEntry oracle req p m] := rfl

theorem loggedFetchEntry_cases (oracle : HttpOracle) (req : HttpRequest) (p m : String) :
    (∃ st body, oracle req = .success st body
      ∧ loggedFetchEntry oracle req p m = ⟨p, m, req, st, some body, none⟩)
    ∨ (∃ name msg, oracle req = .netError name msg
      ∧ loggedFetchEntry oracle req p m = ⟨p, m, req, 0, none, some msg⟩) := by
  cases h : oracle req with
  | success st body => exact Or.inl ⟨st, body, rfl, by simp [loggedFetchEntry, h]⟩
  | netError name msg => exact Or.inr ⟨name, msg, rfl, by simp [loggedFetchEntry, h]⟩

theorem callOpenAI_log (key prompt : String) (model : Option String) (oracle : HttpOracle)
    (log : List APICallLog) :
    (callOpenAI key prompt model oracle log).2
      = log ++ [loggedFetchEntry oracle (openAIRequest key prompt (jsOrOpt model "gpt-4"))
          "openai" (jsOrOpt model "gpt-4")] := rfl

theorem callAnthropic_log (key prompt : String) (model : Option String) (oracle : HttpOracle)
    (log : List APICallLog) :
    (callAnthropic key prompt model oracle log).2
      = log ++ [loggedFetchEntry oracle
          (anthropicRequest key prompt (jsOrOpt model "claude-3-sonnet-20240229"))
          "Anthropic" (jsOrOpt model "claude-3-sonnet-20240229")] := rfl

theorem callDeepSeek_log (key prompt : String) (model : Option String) (oracle : HttpOracle)
    (log : List APICallLog) :
    (callDeepSeek key prompt model oracle log).2
      = log ++ [loggedFetchEntry oracle (deepSeekRequest key prompt (jsOrOpt model "deepseek-chat"))
          "DeepSeek" (jsOrOpt model "deepseek-chat")] := rfl

theorem callGroq_log (key prompt : String) (model : Option String) (oracle : HttpOracle)
    (log : List APICallLog) :
    (callGroq key prompt model oracle log).2
      = log ++ [loggedFetchEntry oracle
          (groqRequest key prompt (jsOrOpt model "llama-3.1-70b-versatile"))
          "Groq" (jsOrOpt model "llama-3.1-70b-versatile")] := rfl

theorem callOpenRouter_log (config : Option OpenRouterConfig) (prompt : String)
    (model : Option String) (oracle : HttpOracle) (log : List APICallLog) :
    ∃ t, (callOpenRouter config prompt model oracle log).2 = log ++ t ∧ t.length ≤ 1 := by
  unfold callOpenRouter
  split
  · exact ⟨[], by simp, by simp⟩
  · split
    · exact ⟨[], by simp, by simp⟩
    · split
      · exact ⟨[], by simp, by simp⟩
      · split
        · exact ⟨[], by simp, by simp⟩
        · exact ⟨_, rfl, by simp⟩

theorem callCustomProvider_log (config : Option CustomProviderConfig) (prompt : String)
    (oracle : HttpOracle) (log : List APICallLog) :
    ∃ t, (callCustomProvider config prompt oracle log).2 = log ++ t ∧ t.length ≤ 1 := by
  unfold callCustomProvider
  split
  · exact ⟨[], by simp, by simp⟩
  · split
    · exact ⟨[], by simp, by simp⟩
    · split
      · exact ⟨[], by simp, by simp⟩
      · exact ⟨_, rfl, by simp⟩

theorem callLocalProvider_log (config : Option LocalSetupConfig) (prompt : String)
    (oracle : HttpOracle) (log : List APICallLog) :
    ∃ t, (callLocalProvider config prompt oracle log).2 = log ++ t ∧ t.length ≤ 2 := by
  unfold callLocalProvider
  split
  · exact ⟨[], by simp, by simp⟩
  · split
    · exact ⟨[], by simp, by simp⟩
    · split
      · exact ⟨[], by simp, by simp⟩
      · split
        · exact ⟨[], by simp, by simp⟩
        · dsimp only
          split
          · split
            · rw [loggedFetch_snd, loggedFetch_snd, List.append_assoc]
              exact ⟨_, rfl, by simp⟩
            · exact ⟨_, rfl, by simp⟩
          · exact ⟨_, rfl, by simp⟩

theorem callAIProvider_log (provider key : String) (data : GenerateData)
    (fw : TestFramework) (s : ExtensionSettings) (oracle : HttpOracle)
    (log : List APICallLog) :
    ∃ t, (callAIProvider provider key data fw s oracle log).2 = log ++ t := by
  unfold callAIProvider
  split
  · exact ⟨_, callOpenAI_log ..⟩
  · exact ⟨_, callAnthropic_log ..⟩
  · exact ⟨_, callDeepSeek_log ..⟩
  · exact ⟨_, callGroq_log ..⟩
  · obtain ⟨t, ht, _⟩ := callLocalProvider_log s.localSetup (buildPrompt data fw s) oracle log
    exact ⟨t, ht⟩
  · obtain ⟨t, ht, _⟩ := callOpenRouter_log s.openRouterConfig (buildPrompt data fw s)
      (s.selectedModel.lookup "openrouter") oracle log
    exact ⟨t, ht⟩
  · obtain ⟨t, ht, _⟩ := callCustomProvider_log s.customProviderConfig (buildPrompt data fw s)
      oracle log
    exact ⟨t, ht⟩
  · exact ⟨[], by simp⟩

/-! ## Claim theorems: call-log discipline and dispatch -/

/-- C9: every HTTP attempt appends exactly one CallLog entry, completed
with response data on an HTTP response and with the error string on a
thrown network error; provider dispatch only ever appends to the log;
and the generation handler ignores (resets) the log left over from the
previous request. -/
theorem claim9_calllog_invariant :
    (∀ (oracle : HttpOracle) (req : HttpRequest) (p m : String) (log : List APICallLog),
        (loggedFetch oracle req p m log).2 = log ++ [loggedFetchEntry oracle req p m])
    ∧ (∀ (oracle : HttpOracle) (req : HttpRequest) (p m : String),
        (∃ st body, oracle req = .success st body
          ∧ loggedFetchEntry oracle req p m = ⟨p, m, req, st, some body, none⟩)
        ∨ (∃ name msg, oracle req = .netError name msg
          ∧ loggedFetchEntry oracle req p m = ⟨p, m, req, 0, none, some msg⟩))
    ∧ (∀ (provider key : String) (data : GenerateData) (fw : TestFramework)
          (s : ExtensionSettings) (oracle : HttpOracle) (log : List APICallLog),
        ∃ t, (callAIProvider provider key data fw s oracle log).2 = log ++ t)
    ∧ (∀ (s : Option ExtensionSettings) (data : GenerateData)
          (tg : GenerateData → ExtensionSettings → String) (oracle : HttpOracle)
          (prev1 prev2 : List APICallLog),
        handleGenerateTest s data tg oracle prev1 = handleGenerateTest s data tg oracle prev2) :=
  ⟨loggedFetch_snd, loggedFetchEntry_cases, callAIProvider_log,
   fun _ _ _ _ _ _ => rfl⟩

/-- C10: a provider identifier outside the supported set is rejected with
`Unsupported AI provider: <identifier>` and the call log is unchanged
(no HTTP attempt). -/
theorem claim10_unsupported_provider (provider key : String) (data : GenerateData)
    (fw : TestFramework) (s : ExtensionSettings) (oracle : HttpOracle)
    (log : List APICallLog) :
    provider ∉ ["openai", "anthropic", "deepseek", "groq", "local", "openrouter", "manual"] →
    callAIProvider provider key data fw s oracle log
      = (.error ("Unsupported AI provider: " ++ provider), log) := by
  intro h
  unfold callAIProvider
  split
  · exact absurd (by simp) h
  · exact absurd (by simp) h
  · exact absurd (by simp) h
  · exact absurd (by simp) h
  · exact absurd (by simp) h
  · exact absurd (by simp) h
  · exact absurd (by simp) h
  · rfl

/-- C10 witness: the identifier `gemini` is rejected unchanged. -/
theorem claim10_witness :
    callAIProvider "gemini" "k" demoData
      ⟨"playwright-js", "Playwright (JavaScript)", "JavaScript"⟩ demoSettings okOracle []
      = (.error ("Unsupported AI provider: " ++ "gemini"), []) :=
  claim10_unsupported_provider "gemini" "k" demoData
    ⟨"playwright-js", "Playwright (JavaScript)", "JavaScript"⟩ demoSettings okOracle []
    (by decide)

/-! ## Helper lemmas: the local provider's two branches -/

theorem callLocalProvider_retry (cfg : LocalSetupConfig) (prompt : String)
    (oracle : HttpOracle) (log : List APICallLog) (body : Json)
    (hp : prompt ≠ "") (he : cfg.endpoint ≠ "") (hm : cfg.model ≠ "")
    (hc : localIsOpenAICompat (jsTrim cfg.endpoint) = true)
    (h404 : oracle (mkLocalReq (localChatUrl (jsTrim cfg.endpoint)) (localChatBody cfg prompt))
      = .success 404 body) :
    (callLocalProvider (some cfg) prompt oracle log).2
      = log ++ [loggedFetchEntry oracle
                  (mkLocalReq (localChatUrl (jsTrim cfg.endpoint)) (localChatBody cfg prompt))
                  "Local Provider" cfg.model,
                loggedFetchEntry oracle
                  (mkLocalReq (localCompUrl (jsTrim cfg.endpoint)) (localCompBody cfg prompt))
                  "Local Provider" cfg.model] := by
  simp only [callLocalProvider]
  rw [if_neg hp, if_neg he, if_neg hm, if_pos hc]
  simp only [loggedFetch, h404]
  rw [List.append_assoc]
  rfl

theorem callLocalProvider_generate (cfg : LocalSetupConfig) (prompt : String)
    (oracle : HttpOracle) (log : List APICallLog)
    (hp : prompt ≠ "") (he : cfg.endpoint ≠ "") (hm : cfg.model ≠ "")
    (hc : localIsOpenAICompat (jsTrim cfg.endpoint) = false) :
    callLocalProvider (some cfg) prompt oracle log
      = (localFinish cfg false (jsTrim cfg.endpoint ++ "/api/generate")
          (oracle (mkLocalReq (jsTrim cfg.endpoint ++ "/api/generate") (localCompBody cfg prompt))),
         log ++ [loggedFetchEntry oracle
           (mkLocalReq (jsTrim cfg.endpoint ++ "/api/generate") (localCompBody cfg prompt))
           "Local Provider" cfg.model]) := by
  simp only [callLocalProvider]
  rw [if_neg hp, if_neg he, if_neg hm, if_neg (by simp [hc])]
  rfl

/-! ## Claim theorem: the single 404 retry, and one attempt elsewhere -/

/-- C1: for the local kind with a `/v1`-detected base, a 404 on the chat
attempt causes exactly one retry against the legacy completions path (two
logged attempts in order, the second at the completions URL); the local
kind never makes more than two attempts; and every other provider kind
makes exactly one HTTP attempt per dispatch that passes validation
(never more than one), whatever the response status. -/
theorem claim1_local_404_retry_once :
    (∀ (cfg : LocalSetupConfig) (prompt : String) (oracle : HttpOracle)
        (log : List APICallLog) (body : Json),
      prompt ≠ "" → cfg.endpoint ≠ "" → cfg.model ≠ "" →
      localIsOpenAICompat (jsTrim cfg.endpoint) = true →
      oracle (mkLocalReq (localChatUrl (jsTrim cfg.endpoint)) (localChatBody cfg prompt))
        = .success 404 body →
      (callLocalProvider (some cfg) prompt oracle log).2
        = log ++ [loggedFetchEntry oracle
                    (mkLocalReq (localChatUrl (jsTrim cfg.endpoint)) (localChatBody cfg prompt))
                    "Local Provider" cfg.model,
                  loggedFetchEntry oracle
                    (mkLocalReq (localCompUrl (jsTrim cfg.endpoint)) (localCompBody cfg prompt))
                    "Local Provider" cfg.model])
    ∧ (∀ config prompt oracle log,
        ∃ t, (callLocalProvider config prompt oracle log).2 = log ++ t ∧ t.length ≤ 2)
    ∧ (∀ key prompt model oracle log,
        ((callOpenAI key prompt model oracle log).2).length = log.length + 1)
    ∧ (∀ key prompt model oracle log,
        ((callAnthropic key prompt model oracle log).2).length = log.length + 1)
    ∧ (∀ key prompt model oracle log,
        ((callDeepSeek key prompt model oracle log).2).length = log.length + 1)
    ∧ (∀ key prompt model oracle log,
        ((callGroq key prompt model oracle log).2).length = log.length + 1)
    ∧ (∀ config prompt model oracle log,
        ∃ t, (callOpenRouter config prompt model oracle log).2 = log ++ t ∧ t.length ≤ 1)
    ∧ (∀ (cfg : OpenRouterConfig) (prompt m : String) (oracle : HttpOracle) (log : List APICallLog),
        prompt ≠ "" → cfg.apiKey ≠ "" → m ≠ "" →
        ((callOpenRouter (some cfg) prompt (some m) oracle log).2).length = log.length + 1)
    ∧ (∀ config prompt oracle log,
        ∃ t, (callCustomProvider config prompt oracle log).2 = log ++ t ∧ t.length ≤ 1)
    ∧ (∀ (cfg : CustomProviderConfig) (prompt : String) (oracle : HttpOracle) (log : List APICallLog),
        prompt ≠ "" → cfg.baseUrl ≠ "" → cfg.apiKey ≠ "" → cfg.model ≠ "" →
        ((callCustomProvider (some cfg) prompt oracle log).2).length = log.length + 1) := by
  refine ⟨callLocalProvider_retry, callLocalProvider_log, ?_, ?_, ?_, ?_,
    callOpenRouter_log, ?_, callCustomProvider_log, ?_⟩
  · intro key prompt model oracle log
    rw [callOpenAI_log]
    simp
  · intro key prompt model oracle log
    rw [callAnthropic_log]
    simp
  · intro key prompt model oracle log
    rw [callDeepSeek_log]
    simp
  · intro key prompt model oracle log
    rw [callGroq_log]
    simp
  · intro cfg prompt m oracle log hp hk hm
    simp [callOpenRouter, hp, hk, hm, loggedFetch]
  · intro cfg prompt oracle log hp hb hk hm
    simp [callCustomProvider, hp, hb, hk, hm, loggedFetch]

/-- C1 witness: at a concrete `/v1` configuration whose chat path 404s,
the dispatch logs exactly two attempts, the second at the legacy
completions URL. -/
theorem claim1_witness :
    ((callLocalProvider (some v1Cfg) "generate a test" notFoundOracle []).2).length = 2
    ∧ ((callLocalProvider (some v1Cfg) "generate a test" notFoundOracle []).2).map
        (fun e => e.request.url)
      = ["http://localhost:1234/v1/chat/completions", "http://localhost:1234/v1/completions"] := by
  have h := claim1_local_404_retry_once.1 v1Cfg "generate a test" notFoundOracle [] (.obj [])
    (by decide) (by decide) (by decide) (by decide) (by rfl)
  rw [h]
  constructor
  · rfl
  · decide

/-! ## Claim theorem: local generate-endpoint path -/

/-- C2: when the trimmed local base URL is not detected as
OpenAI-compatible (no `/v1`), exactly one request goes out, to
`base + "/api/generate"`, with a body carrying the configured model, the
system-prompt-prefixed prompt, and `stream: false`; on a 2xx reply the
content is extracted via `response || text || content` (a chat-shaped
attempt never occurs: the single logged request is the generate one). -/
theorem claim2_local_generate_endpoint (cfg : LocalSetupConfig) (prompt : String)
    (oracle : HttpOracle) (log : List APICallLog)
    (hp : prompt ≠ "") (he : cfg.endpoint ≠ "") (hm : cfg.model ≠ "")
    (hc : localIsOpenAICompat (jsTrim cfg.endpoint) = false) :
    ((callLocalProvider (some cfg) prompt oracle log).2
        = log ++ [loggedFetchEntry oracle
            (mkLocalReq (jsTrim cfg.endpoint ++ "/api/generate") (localCompBody cfg prompt))
            "Local Provider" cfg.model])
    ∧ (localCompBody cfg prompt).getField "model" = some (.str cfg.model)
    ∧ (localCompBody cfg prompt).getField "prompt"
        = some (.str (systemPrompt ++ "\n\n" ++ prompt))
    ∧ (localCompBody cfg prompt).getField "stream" = some (.bool false)
    ∧ ∀ (st : Nat) (body : Json),
        oracle (mkLocalReq (jsTrim cfg.endpoint ++ "/api/generate") (localCompBody cfg prompt))
          = .success st body →
        statusOk st = true →
        (callLocalProvider (some cfg) prompt oracle log).1
          = (match ollamaExtract body with
             | some content => .ok (cleanAIResponse content)
             | none => .error "No content received from local AI service. Response format may be unexpected.") := by
  have hgen := callLocalProvider_generate cfg prompt oracle log hp he hm hc
  refine ⟨by rw [hgen], rfl, rfl, rfl, ?_⟩
  intro st body hbody hok
  rw [hgen]
  show localFinish cfg false (jsTrim cfg.endpoint ++ "/api/generate")
    (oracle (mkLocalReq (jsTrim cfg.endpoint ++ "/api/generate") (localCompBody cfg prompt))) = _
  rw [hbody]
  simp [localFinish, hok]

/-- C2 witness: end-to-end scenario 2 — the Ollama-style configuration
logs one call, to the generate endpoint, and yields `do_something()`. -/
theorem claim2_witness :
    ((callLocalProvider (some ollamaCfg) "generate a test" ollamaOracle []).2).map
        (fun e => e.request.url)
      = ["http://localhost:11434/api/generate"]
    ∧ (callLocalProvider (some ollamaCfg) "generate a test" ollamaOracle []).1
      = .ok "do_something()" := by
  have h := claim2_local_generate_endpoint ollamaCfg "generate a test" ollamaOracle []
    (by decide) (by decide) (by decide) (by decide)
  constructor
  · rw [h.1]
    decide
  · rw [h.2.2.2.2 200 (.obj [("response", .str "do_something()")]) rfl (by decide)]
    rfl

/-! ## Claim C3: per-status hosted error classes (refuted) -/

/-- C3 counterexample: a hosted-chat 401 whose body has no `error.message`
is rejected with the generic `OpenAI API error`, which contains neither
`key` nor `credentials`; likewise a 500 response's body text (`boom`) is
not included in the message. The status code never selects a message
class for hosted providers. -/
theorem claim3_counterexample :
    getErr (callOpenAI "k" "p" none bareUnauthorizedOracle []) = some "OpenAI API error"
    ∧ containsSub "OpenAI API error" "key" = false
    ∧ containsSub "OpenAI API error" "credentials" = false
    ∧ getErr (callOpenAI "k" "p" none serverBoomOracle []) = some "OpenAI API error"
    ∧ containsSub "OpenAI API error" "boom" = false :=
  ⟨rfl, by decide, by decide, rfl, by decide⟩

/-- C3 (amended): for the hosted chat providers, every non-2xx response —
401, 429 and 500 alike — rejects with `data.error?.message` when that is
a non-empty string, and otherwise with the provider-generic message
(`OpenAI API error` / `Groq API error`); the response body text is
included only insofar as it is that field. -/
theorem claim3_hosted_error_message (key prompt : String) (model : Option String)
    (oracle : HttpOracle) (log : List APICallLog) (st : Nat) (body : Json)
    (hst : statusOk st = false) :
    (oracle (openAIRequest key prompt (jsOrOpt model "gpt-4")) = .success st body →
      (callOpenAI key prompt model oracle log).1 = .error (errMsgOr body "OpenAI API error"))
    ∧ (oracle (groqRequest key prompt (jsOrOpt model "llama-3.1-70b-versatile"))
        = .success st body →
      (callGroq key prompt model oracle log).1 = .error (errMsgOr body "Groq API error")) := by
  constructor
  · intro hbody
    show finishHosted chatMsgContent "OpenAI API error"
      (oracle (openAIRequest key prompt (jsOrOpt model "gpt-4"))) = _
    rw [hbody]
    simp [finishHosted, hst]
  · intro hbody
    show finishHosted chatMsgContent "Groq API error"
      (oracle (groqRequest key prompt (jsOrOpt model "llama-3.1-70b-versatile"))) = _
    rw [hbody]
    simp [finishHosted, hst]

/-- C3 witness: end-to-end scenario 3 — a 401 with
`{"error":{"message":"invalid_api_key"}}` rejects with that message. -/
theorem claim3_witness :
    (callOpenAI "k" "p" none badKeyOracle []).1 = .error "invalid_api_key" := by
  have h := (claim3_hosted_error_message "k" "p" none badKeyOracle [] 401
    (.obj [("error", .obj [("message", .str "invalid_api_key")])]) (by decide)).1 rfl
  rw [h]
  rfl

/-! ## Claim C4: missing API key fails before any network call -/

/-- C4: when the selected provider is hosted (not local, not openrouter)
and its key is absent or empty, the generation handler fails with the
provider-specific `<Provider> API key not configured` message and an
empty call log (no HTTP attempt); same for openrouter with its dedicated
key field. -/
theorem claim4_missing_key_fails_fast (s : ExtensionSettings) (data : GenerateData)
    (tg : GenerateData → ExtensionSettings → String) (oracle : HttpOracle)
    (prev : List APICallLog) :
    (s.selectedAIProvider ≠ "" → s.selectedAIProvider ≠ "local" →
      s.selectedAIProvider ≠ "openrouter" →
      (s.apiKeys.lookup s.selectedAIProvider).getD "" = "" →
      handleGenerateTest (some s) data tg oracle prev
        = (.error (capitalizeFirst s.selectedAIProvider
            ++ " API key not configured. Please add your API key in settings."), []))
    ∧ (s.selectedAIProvider = "openrouter" →
      (match s.openRouterConfig with | some c => c.apiKey | none => "") = "" →
      handleGenerateTest (some s) data tg oracle prev
        = (.error "OpenRouter API key not configured. Please add your API key in settings.", [])) := by
  constructor
  · intro h0 hl ho hk
    simp only [handleGenerateTest]
    rw [if_neg h0, if_neg hl, if_neg ho, if_pos hk]
  · intro ho hk
    simp only [handleGenerateTest]
    rw [if_neg (by simp [ho]), if_neg (by simp [ho]), if_pos ho, if_pos hk]

/-- C4 witness: with no `openai` key configured and a stale previous log,
the handler fails with the key message and an empty log. -/
theorem claim4_witness :
    handleGenerateTest (some noKeySettings) demoData noTemplate okOracle
      [⟨"stale", "stale", ⟨"u", "m", [], .nul⟩, 0, none, none⟩]
      = (.error (capitalizeFirst "openai"
          ++ " API key not configured. Please add your API key in settings."), []) :=
  (claim4_missing_key_fails_fast noKeySettings demoData noTemplate okOracle
    [⟨"stale", "stale", ⟨"u", "m", [], .nul⟩, 0, none, none⟩]).1
    (by decide) (by decide) (by decide) rfl

/-! ## Claim C5: end-to-end hosted-chat scenario -/

/-- C5: the request with one click action on the `submit` button and
scenario `Click submit`, dispatched to the hosted-chat provider whose
mocked 2xx reply is `{"choices":[{"message":{"content":"(fenced code)"}}]}`,
yields exactly `click('#submit')`: content read from
`choices[0].message.content`, python fence and whitespace stripped. -/
theorem claim5_e2e_hosted_chat :
    getCode (handleGenerateTest (some demoSettings) demoData noTemplate okOracle [])
      = some "click('#submit')" := by
  rfl

end AIGen
